import Mathlib

/-!
Shallow embedding of the `dirtverb` plugin's DSP core (a "destructive shimmer
reverb": an 8-line FDN reverb with pitch-shifted feedback plus lo-fi degrade and
wavefolding stages) and proofs about its per-sample behaviour.

The embedding follows the C++ sources:
* `Source/DSP/LofiDegrader.h`   — sample-and-hold rate reduction + bit crushing
* `Source/DSP/Wavefolder.h`     — gain → triangle fold → soft clip → DC block
* `Source/DSP/ShimmerReverb.h`  — 8-line FDN with Hadamard mixing and shimmer
* `Source/PluginProcessor.cpp`  — per-sample routing (`processBlock` loop body)

`float` arithmetic is modelled over `ℝ` (exact real arithmetic); `std::pow` on
real exponents is `Real.rpow`, `std::tanh` is `Real.tanh`.  `juce::dsp::DelayLine`
(linear interpolation, zero-initialised storage) is modelled by the full list of
pushed samples, newest first, with the zero-initialised prehistory supplied by a
default of `0` past the end of the list.
-/

namespace Dirtverb

/-- Bit population count, mirroring the loop
`while (bits) { popcount += bits & 1; bits >>= 1; }` in
`ShimmerReverb::hadamardMix`.  The first argument is fuel so that the
definition is structurally recursive (and hence kernel-reducible); `n` is
always enough fuel for `bits = n` since the loop runs at most `log2 n + 1`
times. -/
def popcountGo : Nat → Nat → Nat
  | 0, _ => 0
  | _ + 1, 0 => 0
  | fuel + 1, bits => bits % 2 + popcountGo fuel (bits / 2)

/-- Population count of `n`: number of 1 bits, as computed by the source's
shift-and-mask loop. -/
def popcount (n : Nat) : Nat := popcountGo n n

noncomputable section

/-- Model of `std::clamp(x, lo, hi)`: `lo` if `x < lo`, `hi` if `hi < x`, else `x`. -/
def stdClamp (x lo hi : ℝ) : ℝ := max lo (min x hi)

/-- Model of `std::round`: round half away from zero. -/
def roundAway (x : ℝ) : ℤ := if x < 0 then -⌊-x + 1 / 2⌋ else ⌊x + 1 / 2⌋

/-- Model of `static_cast<int>` on a nonnegative real (truncation toward zero). -/
def truncToZero (x : ℝ) : ℤ := if x < 0 then -⌊-x⌋ else ⌊x⌋

/-- Model of `std::fmod a b`: remainder with the sign of the dividend,
`a - b * trunc(a / b)`. -/
def fmodR (a b : ℝ) : ℝ := a - b * (truncToZero (a / b) : ℝ)

/-- State of `LofiDegrader` (one per channel): native/target sample rates, the
fractional target bit depth, the degrade amount, the sample-and-hold phase
accumulator and held sample, and the dither PRNG state (`uint32_t randState`). -/
structure LofiDegrader where
  actualSampleRate : ℝ
  targetSampleRate : ℝ
  targetBitDepth : ℝ
  degradeAmount : ℝ
  phase : ℝ
  holdSampleL : ℝ
  randState : ℕ

/-- A default-constructed `LofiDegrader`, per the C++ member initialisers. -/
def lofiInit : LofiDegrader :=
  { actualSampleRate := 44100, targetSampleRate := 44100, targetBitDepth := 16,
    degradeAmount := 0, phase := 0, holdSampleL := 0, randState := 12345 }

/-- Embedding of `LofiDegrader::reset`: zero the phase accumulator and held sample. -/
def LofiDegrader.reset (st : LofiDegrader) : LofiDegrader :=
  { st with phase := 0, holdSampleL := 0 }

/-- Embedding of `LofiDegrader::prepare`: record the native sample rate, then reset. -/
def LofiDegrader.prepare (st : LofiDegrader) (sampleRate : ℝ) : LofiDegrader :=
  LofiDegrader.reset { st with actualSampleRate := sampleRate }

/-- Embedding of `LofiDegrader::setDegrade`: clamp the amount to `[0,1]`, map it through an
exponential curve `0.1 ^ amount` to the target sample rate (floored at 4000 Hz)
and linearly to the target bit depth (floored at 4 bits). -/
def LofiDegrader.setDegrade (st : LofiDegrader) (amount : ℝ) : LofiDegrader :=
  let degradeAmount := stdClamp amount 0 1
  let srRatio : ℝ := (0.1 : ℝ) ^ (degradeAmount : ℝ)
  let targetSampleRate := max (st.actualSampleRate * srRatio) 4000
  let targetBitDepth := max (16 - degradeAmount * 12) 4
  { st with degradeAmount := degradeAmount, targetSampleRate := targetSampleRate,
            targetBitDepth := targetBitDepth }

/-- Embedding of `LofiDegrader::randomFloat`: advance the 32-bit LCG and return a value in
`[0, 1]` from the low 31 bits. -/
def LofiDegrader.randomFloat (st : LofiDegrader) : ℝ × LofiDegrader :=
  let s := (st.randState * 1103515245 + 12345) % 2 ^ 32
  (((s &&& 0x7FFFFFFF : ℕ) : ℝ) / ((0x7FFFFFFF : ℕ) : ℝ), { st with randState := s })

/-- Embedding of `LofiDegrader::bitCrush`: quantize to the given (possibly fractional) bit
depth; above 6 bits add triangular dither from two LCG draws. -/
def LofiDegrader.bitCrush (st : LofiDegrader) (sample bits : ℝ) : ℝ × LofiDegrader :=
  let scale : ℝ := (2 : ℝ) ^ (bits - 1 : ℝ)
  let quantized := (roundAway (sample * scale) : ℝ) / scale
  if bits > 6 then
    let r1 := st.randomFloat
    let r2 := r1.2.randomFloat
    (quantized + (r1.1 + r2.1 - 1) * (1 / scale) * 0.5, r2.2)
  else
    (quantized, st)

/-- Embedding of `LofiDegrader::process`: bypass below the `0.001` threshold; otherwise
advance the phase accumulator by `targetRate / nativeRate` and re-sample-and-hold
(bit-crushing the input) whenever the phase crosses `1`. -/
def LofiDegrader.process (st : LofiDegrader) (input : ℝ) : ℝ × LofiDegrader :=
  if st.degradeAmount < 0.001 then
    (input, st)
  else
    let phaseIncrement := st.targetSampleRate / st.actualSampleRate
    let phase := st.phase + phaseIncrement
    if phase ≥ 1 then
      let crushed := st.bitCrush input st.targetBitDepth
      (crushed.1, { crushed.2 with phase := phase - 1, holdSampleL := crushed.1 })
    else
      (st.holdSampleL, { st with phase := phase })

/-- State of `Wavefolder` (one per channel): fold parameters and the DC-blocker
filter state. -/
structure Wavefolder where
  sampleRate : ℝ
  foldAmount : ℝ
  foldGain : ℝ
  dcBlockerCoeff : ℝ
  dcBlockerState : ℝ
  prevInput : ℝ

/-- A default-constructed `Wavefolder`, per the C++ member initialisers. -/
def wavefolderInit : Wavefolder :=
  { sampleRate := 44100, foldAmount := 0, foldGain := 1,
    dcBlockerCoeff := 0.995, dcBlockerState := 0, prevInput := 0 }

/-- Embedding of `Wavefolder::reset`: zero the DC-blocker state. -/
def Wavefolder.reset (st : Wavefolder) : Wavefolder :=
  { st with dcBlockerState := 0, prevInput := 0 }

/-- Embedding of `Wavefolder::prepare`: compute the ~20 Hz DC-blocker coefficient, then
reset. -/
def Wavefolder.prepare (st : Wavefolder) (sr : ℝ) : Wavefolder :=
  Wavefolder.reset
    { st with sampleRate := sr,
              dcBlockerCoeff := 1 / (1 + 2 * 3.14159265 * 20 / sr) }

/-- Embedding of `Wavefolder::setFold`: clamp the amount to `[0,1]` and map it to the
pre-gain `1 + amount * 7`. -/
def Wavefolder.setFold (st : Wavefolder) (amount : ℝ) : Wavefolder :=
  let foldAmount := stdClamp amount 0 1
  { st with foldAmount := foldAmount, foldGain := 1 + foldAmount * 7 }

/-- Embedding of `Wavefolder::fold`: reduce to `[-2, 2]` by `fmod` when out of range, then
apply the triangle fold `| |x| - 2 | - 1`. -/
def Wavefolder.fold (x : ℝ) : ℝ :=
  let y :=
    if x > 2 ∨ x < -2 then
      let m := fmodR (x + 2) 4
      let m2 := if m < 0 then m + 4 else m
      m2 - 2
    else x
  |(|y| - 2)| - 1

/-- Embedding of `Wavefolder::softClip`: cubic soft clipper. -/
def Wavefolder.softClip (x : ℝ) : ℝ :=
  if x > 1 then 1 - 1 / (x * x + 1)
  else if x < -1 then -1 + 1 / (x * x + 1)
  else x - x * x * x / 3

/-- Embedding of `Wavefolder::dcBlock`: one-pole high-pass filter. -/
def Wavefolder.dcBlock (st : Wavefolder) (input : ℝ) : ℝ × Wavefolder :=
  let output := input - st.prevInput + st.dcBlockerCoeff * st.dcBlockerState
  (output, { st with prevInput := input, dcBlockerState := output })

/-- Embedding of `Wavefolder::process`: bypass below the `0.001` threshold; otherwise
gain → fold → soft clip → DC block → `* 0.7`. -/
def Wavefolder.process (st : Wavefolder) (input : ℝ) : ℝ × Wavefolder :=
  if st.foldAmount < 0.001 then
    (input, st)
  else
    let x := Wavefolder.softClip (Wavefolder.fold (input * st.foldGain))
    let blocked := st.dcBlock x
    (blocked.1 * 0.7, blocked.2)

/-- Pre-gain produced by `Wavefolder::setFold` as a function of the amount. -/
def foldGainOf (amount : ℝ) : ℝ := (wavefolderInit.setFold amount).foldGain

/-- Linear-interpolating read from a delay-line history (`juce::dsp::DelayLine`
with `Linear` interpolation).  `hist` lists every sample pushed so far, newest
first; indices past the end read the zero-initialised prehistory.  A fractional
delay `d` interpolates between entries `⌊d⌋` and `⌊d⌋ + 1`. -/
def delayRead (hist : List ℝ) (d : ℝ) : ℝ :=
  let i := (⌊d⌋).toNat
  let frac := Int.fract d
  hist.getD i 0 * (1 - frac) + hist.getD (i + 1) 0 * frac

/-- State of `ShimmerReverb`: the 8 delay-line histories and per-line base
delays, the 4 input-diffuser histories, the per-line one-pole damping filter
states, the derived parameters, and the granular pitch-shifter state.
`delayLineStates` is the (unused) `std::array<float, 8> delayLineStates` member. -/
structure ShimmerReverb where
  sampleRate : ℝ
  baseDelayTimes : Fin 8 → ℕ
  delayLines : Fin 8 → List ℝ
  inputDiffusers : Fin 4 → List ℝ
  dampingFilters : Fin 8 → ℝ
  delayLineStates : Fin 8 → ℝ
  dampingCoeff : ℝ
  feedbackGain : ℝ
  shimmerMix : ℝ
  roomSize : ℝ
  shimmerCompensation : ℝ
  pitchShiftBuffer : List ℝ
  pitchShiftWritePos : ℕ
  pitchShiftReadPos : ℝ

/-- Embedding of `ShimmerReverb::reset`: clear the delay lines, the diffusers, the unused
`delayLineStates` array, and fill the pitch-shift buffer with zeros (keeping
its size).  Faithful to the source, it touches nothing else — in particular
not `dampingFilters`, `pitchShiftWritePos` or `pitchShiftReadPos`. -/
def ShimmerReverb.reset (st : ShimmerReverb) : ShimmerReverb :=
  { st with delayLines := fun _ => [], inputDiffusers := fun _ => [],
            delayLineStates := fun _ => 0,
            pitchShiftBuffer := List.replicate st.pitchShiftBuffer.length 0 }

/-- Feedback gain derived by `ShimmerReverb::setParameters` from the decay
time: the near-unity constant `0.9985` above 50 s, otherwise the RT60 formula
`10 ^ (-3 · 0.030 / decay)` clamped to `[0, 0.985]`. -/
def feedbackGainOf (decaySeconds : ℝ) : ℝ :=
  if decaySeconds > 50 then 0.9985
  else stdClamp ((10 : ℝ) ^ (-3 * (0.030 : ℝ) / decaySeconds : ℝ)) 0 0.985

/-- Embedding of `ShimmerReverb::setParameters`: derive the feedback gain, store the shimmer
mix, clamp and store the room size, derive the damping coefficient and the
shimmer compensation.  Note the C++ computes `dampingCoeff` from the function
parameter `roomSize` (which shadows the member), i.e. from the unclamped
value. -/
def ShimmerReverb.setParameters (st : ShimmerReverb)
    (decaySeconds shimmerAmount roomSize : ℝ) : ShimmerReverb :=
  { st with feedbackGain := feedbackGainOf decaySeconds,
            shimmerMix := shimmerAmount,
            roomSize := stdClamp roomSize 0 1,
            dampingCoeff := 0.2 + roomSize * 0.4,
            shimmerCompensation := 1 - shimmerAmount * 0.15 }

/-- Embedding of `ShimmerReverb::softLimit`: identity below the `0.8` threshold, tanh-based
saturation of the excess above it. -/
def softLimit (x : ℝ) : ℝ :=
  if |x| < 0.8 then x
  else
    let sign : ℝ := if x > 0 then 1 else -1
    let excess := |x| - 0.8
    sign * (0.8 + (1 - 0.8) * Real.tanh (excess * 2))

/-- Embedding of `ShimmerReverb::hadamardMix`: normalized 8×8 Hadamard transform, entry
`(i, j)` being `(-1) ^ popcount(i & j)`, scaled by `1 / √8`. -/
def hadamardMix (input : Fin 8 → ℝ) : Fin 8 → ℝ := fun i =>
  (∑ j : Fin 8, (if popcount ((i : ℕ) &&& (j : ℕ)) % 2 = 0 then (1 : ℝ) else -1) * input j)
    * (1 / Real.sqrt 8)

/-- Embedding of `ShimmerReverb::processPitchShift`: write the input at the write cursor,
advance the read cursor at twice the write rate (octave up), read with linear
interpolation, and window by a raised cosine keyed to a 512-sample grain. -/
def ShimmerReverb.processPitchShift (st : ShimmerReverb) (input : ℝ) : ℝ × ShimmerReverb :=
  let buf := st.pitchShiftBuffer.set st.pitchShiftWritePos input
  let size := buf.length
  let writePos := (st.pitchShiftWritePos + 1) % size
  let rp := st.pitchShiftReadPos + 2
  let readPos := if rp ≥ (size : ℝ) then rp - (size : ℝ) else rp
  let readIdx := (⌊readPos⌋).toNat
  let frac := readPos - (readIdx : ℝ)
  let nextIdx := (readIdx + 1) % size
  let sample := buf.getD readIdx 0 * (1 - frac) + buf.getD nextIdx 0 * frac
  let grainPos := readIdx % 512
  let window := 0.5 - 0.5 * Real.cos (2 * Real.pi * (grainPos : ℝ) / 512)
  (sample * window,
   { st with pitchShiftBuffer := buf, pitchShiftWritePos := writePos,
             pitchShiftReadPos := readPos })

/-- One all-pass stage of the input diffusion in `ShimmerReverb::process`:
read the delayed sample, push `diffused + delayed * 0.6`, and output
`delayed - diffused * 0.6`. -/
def diffuserStep (sampleRate delaySec diffused : ℝ) (buf : List ℝ) : ℝ × List ℝ :=
  let delayed := delayRead buf (delaySec * sampleRate)
  (delayed - diffused * 0.6, (diffused + delayed * 0.6) :: buf)

/-- Embedding of `ShimmerReverb::process`: input diffusion through 4 all-pass stages, delay
reads modulated by room size, Hadamard mixing, per-line damping + soft limiting
+ feedback gain, shimmer injection into the first four lines, soft-limited
write-back, and the `0.25`-scaled sum of the delay reads as output. -/
def ShimmerReverb.process (st : ShimmerReverb) (input : ℝ) : ℝ × ShimmerReverb :=
  let s0 := diffuserStep st.sampleRate 0.0042 input (st.inputDiffusers 0)
  let s1 := diffuserStep st.sampleRate 0.0036 s0.1 (st.inputDiffusers 1)
  let s2 := diffuserStep st.sampleRate 0.0029 s1.1 (st.inputDiffusers 2)
  let s3 := diffuserStep st.sampleRate 0.0023 s2.1 (st.inputDiffusers 3)
  let delayOutputs : Fin 8 → ℝ := fun i =>
    delayRead (st.delayLines i) ((st.baseDelayTimes i : ℝ) * (0.5 + st.roomSize))
  let mixed := hadamardMix delayOutputs
  let damped : Fin 8 → ℝ := fun i =>
    st.dampingFilters i + st.dampingCoeff * (mixed i - st.dampingFilters i)
  let fb : Fin 8 → ℝ := fun i =>
    softLimit (damped i) * st.feedbackGain * st.shimmerCompensation
  let shifted := st.processPitchShift (fb 0)
  let inputContribution := s3.1 / 8
  let newLines : Fin 8 → List ℝ := fun i =>
    softLimit (fb i + inputContribution +
      (if (i : ℕ) < 4 then shifted.1 * st.shimmerMix * 0.25 else 0)) :: st.delayLines i
  let output := (∑ i : Fin 8, delayOutputs i) * 0.25
  (output,
   { shifted.2 with
       inputDiffusers := fun k =>
         if k = 0 then s0.2 else if k = 1 then s1.2 else if k = 2 then s2.2 else s3.2,
       dampingFilters := damped,
       delayLines := newLines })

/-- Per-sample reverb parameter triple `(decaySeconds, shimmerAmount, roomSize)`
as passed to `ShimmerReverb::setParameters`. -/
structure ReverbParams where
  decay : ℝ
  shimmer : ℝ
  room : ℝ

/-- Run the reverb over a list of per-sample steps, each step first applying
`setParameters` and then `process` on one input sample (the per-sample pattern
of `CinderProcessor::processBlock`).  Returns the output samples and the final
state. -/
def ShimmerReverb.run (st : ShimmerReverb) :
    List (ReverbParams × ℝ) → List ℝ × ShimmerReverb
  | [] => ([], st)
  | (p, x) :: rest =>
    let st1 := st.setParameters p.decay p.shimmer p.room
    let step := st1.process x
    let tail := step.2.run rest
    (step.1 :: tail.1, tail.2)

/-- All samples stored in every delay line have magnitude at most 1. -/
def delayBounded (st : ShimmerReverb) : Prop :=
  ∀ i : Fin 8, ∀ v ∈ st.delayLines i, |v| ≤ 1

/-- Feedback gain derived from the host decay parameter: the per-sample loop of
`CinderProcessor::processBlock` maps decay values strictly above `29.5` to an
"infinite" decay of `100` s before calling `setParameters`. -/
def derivedFeedbackGain (decay : ℝ) : ℝ :=
  feedbackGainOf (if decay > 29.5 then 100 else decay)

/-- Smoothed per-sample parameter values read at the top of the
`CinderProcessor::processBlock` loop. -/
structure RouterParams where
  decay : ℝ
  shimmer : ℝ
  degrade : ℝ
  fold : ℝ
  dirt : ℝ
  size : ℝ
  mix : ℝ
  pre : ℝ
  duck : ℝ

/-- DSP state owned by `CinderProcessor`: per-channel reverbs, pre/post
degraders and wavefolders, and the sidechain envelope follower. -/
structure CinderProcessor where
  shimmerReverbL : ShimmerReverb
  shimmerReverbR : ShimmerReverb
  preLofiDegraderL : LofiDegrader
  preLofiDegraderR : LofiDegrader
  postLofiDegraderL : LofiDegrader
  postLofiDegraderR : LofiDegrader
  preWavefolderL : Wavefolder
  preWavefolderR : Wavefolder
  postWavefolderL : Wavefolder
  postWavefolderR : Wavefolder
  envState : ℝ
  envAttackCoeff : ℝ
  envReleaseCoeff : ℝ

/-- One iteration of the per-sample loop of `CinderProcessor::processBlock`
(lines 185–284): infinite-mode decay mapping, parameter pushes into the DSP
components, envelope follower update, gated pre-destruction, reverb, gated
post-destruction, pre/post wet blend, gated ducking, and the final dry/wet
mix.  Returns the output sample pair and the updated processor state. -/
def CinderProcessor.processSample (st : CinderProcessor) (p : RouterParams)
    (inL inR : ℝ) : (ℝ × ℝ) × CinderProcessor :=
  let actualDecay := if p.decay > 29.5 then (100 : ℝ) else p.decay
  let revL := st.shimmerReverbL.setParameters actualDecay p.shimmer p.size
  let revR := st.shimmerReverbR.setParameters actualDecay p.shimmer p.size
  let preDegL := st.preLofiDegraderL.setDegrade p.degrade
  let preDegR := st.preLofiDegraderR.setDegrade p.degrade
  let preFoldL := st.preWavefolderL.setFold p.fold
  let preFoldR := st.preWavefolderR.setFold p.fold
  let postDegL := st.postLofiDegraderL.setDegrade p.degrade
  let postDegR := st.postLofiDegraderR.setDegrade p.degrade
  let postFoldL := st.postWavefolderL.setFold p.fold
  let postFoldR := st.postWavefolderR.setFold p.fold
  let dryL := inL
  let dryR := inR
  let dryMono := (|dryL| + |dryR|) * 0.5
  let envCoeff := if dryMono > st.envState then st.envAttackCoeff else st.envReleaseCoeff
  let envState := envCoeff * st.envState + (1 - envCoeff) * dryMono
  let preStage :=
    if p.pre > 0.001 then
      let a := preDegL.process dryL
      let b := preDegR.process dryR
      let c := preFoldL.process a.1
      let d := preFoldR.process b.1
      ((a.1 * (1 - p.dirt) + c.1 * p.dirt, b.1 * (1 - p.dirt) + d.1 * p.dirt),
       (a.2, b.2, c.2, d.2))
    else
      ((dryL, dryR), (preDegL, preDegR, preFoldL, preFoldR))
  let reverbInL := dryL * (1 - p.pre) + preStage.1.1 * p.pre
  let reverbInR := dryR * (1 - p.pre) + preStage.1.2 * p.pre
  let rL := revL.process reverbInL
  let rR := revR.process reverbInR
  let postStage :=
    if p.pre < 0.999 then
      let a := postDegL.process rL.1
      let b := postDegR.process rR.1
      let c := postFoldL.process a.1
      let d := postFoldR.process b.1
      ((a.1 * (1 - p.dirt) + c.1 * p.dirt, b.1 * (1 - p.dirt) + d.1 * p.dirt),
       (a.2, b.2, c.2, d.2))
    else
      ((rL.1, rR.1), (postDegL, postDegR, postFoldL, postFoldR))
  let wetL0 := postStage.1.1 * (1 - p.pre) + rL.1 * p.pre
  let wetR0 := postStage.1.2 * (1 - p.pre) + rR.1 * p.pre
  let duckGain := if p.duck > 0.001 then max 0 (1 - p.duck * envState) else 1
  let wetL := wetL0 * duckGain
  let wetR := wetR0 * duckGain
  ((dryL * (1 - p.mix) + wetL * p.mix, dryR * (1 - p.mix) + wetR * p.mix),
   { shimmerReverbL := rL.2, shimmerReverbR := rR.2,
     preLofiDegraderL := preStage.2.1, preLofiDegraderR := preStage.2.2.1,
     postLofiDegraderL := postStage.2.1, postLofiDegraderR := postStage.2.2.1,
     preWavefolderL := preStage.2.2.2.1, preWavefolderR := preStage.2.2.2.2,
     postWavefolderL := postStage.2.2.2.1, postWavefolderR := postStage.2.2.2.2,
     envState := envState,
     envAttackCoeff := st.envAttackCoeff, envReleaseCoeff := st.envReleaseCoeff })

/-- Variant of `CinderProcessor.processSample` with the pre-destruction stage
forcibly disabled: the `if (pre > 0.001f)` block is removed, so the pre-path
degrader/wavefolder are never invoked (they still receive the same
`setDegrade`/`setFold` parameter pushes, which the source performs
unconditionally) and the pre-destroyed signal is just the dry signal. -/
def CinderProcessor.processSampleNoPre (st : CinderProcessor) (p : RouterParams)
    (inL inR : ℝ) : (ℝ × ℝ) × CinderProcessor :=
  let actualDecay := if p.decay > 29.5 then (100 : ℝ) else p.decay
  let revL := st.shimmerReverbL.setParameters actualDecay p.shimmer p.size
  let revR := st.shimmerReverbR.setParameters actualDecay p.shimmer p.size
  let preDegL := st.preLofiDegraderL.setDegrade p.degrade
  let preDegR := st.preLofiDegraderR.setDegrade p.degrade
  let preFoldL := st.preWavefolderL.setFold p.fold
  let preFoldR := st.preWavefolderR.setFold p.fold
  let postDegL := st.postLofiDegraderL.setDegrade p.degrade
  let postDegR := st.postLofiDegraderR.setDegrade p.degrade
  let postFoldL := st.postWavefolderL.setFold p.fold
  let postFoldR := st.postWavefolderR.setFold p.fold
  let dryL := inL
  let dryR := inR
  let dryMono := (|dryL| + |dryR|) * 0.5
  let envCoeff := if dryMono > st.envState then st.envAttackCoeff else st.envReleaseCoeff
  let envState := envCoeff * st.envState + (1 - envCoeff) * dryMono
  let preStage := ((dryL, dryR), (preDegL, preDegR, preFoldL, preFoldR))
  let reverbInL := dryL * (1 - p.pre) + preStage.1.1 * p.pre
  let reverbInR := dryR * (1 - p.pre) + preStage.1.2 * p.pre
  let rL := revL.process reverbInL
  let rR := revR.process reverbInR
  let postStage :=
    if p.pre < 0.999 then
      let a := postDegL.process rL.1
      let b := postDegR.process rR.1
      let c := postFoldL.process a.1
      let d := postFoldR.process b.1
      ((a.1 * (1 - p.dirt) + c.1 * p.dirt, b.1 * (1 - p.dirt) + d.1 * p.dirt),
       (a.2, b.2, c.2, d.2))
    else
      ((rL.1, rR.1), (postDegL, postDegR, postFoldL, postFoldR))
  let wetL0 := postStage.1.1 * (1 - p.pre) + rL.1 * p.pre
  let wetR0 := postStage.1.2 * (1 - p.pre) + rR.1 * p.pre
  let duckGain := if p.duck > 0.001 then max 0 (1 - p.duck * envState) else 1
  let wetL := wetL0 * duckGain
  let wetR := wetR0 * duckGain
  ((dryL * (1 - p.mix) + wetL * p.mix, dryR * (1 - p.mix) + wetR * p.mix),
   { shimmerReverbL := rL.2, shimmerReverbR := rR.2,
     preLofiDegraderL := preStage.2.1, preLofiDegraderR := preStage.2.2.1,
     postLofiDegraderL := postStage.2.1, postLofiDegraderR := postStage.2.2.1,
     preWavefolderL := preStage.2.2.2.1, preWavefolderR := preStage.2.2.2.2,
     postWavefolderL := postStage.2.2.2.1, postWavefolderR := postStage.2.2.2.2,
     envState := envState,
     envAttackCoeff := st.envAttackCoeff, envReleaseCoeff := st.envReleaseCoeff })

/-- A concrete `ShimmerReverb` state with nonzero damping-filter values and
nonzero pitch-shift cursors, used to exercise `reset`. -/
def shimmerDemo : ShimmerReverb :=
  { sampleRate := 44100, baseDelayTimes := fun _ => 1556,
    delayLines := fun _ => [], inputDiffusers := fun _ => [],
    dampingFilters := fun _ => 1 / 2, delayLineStates := fun _ => 0,
    dampingCoeff := 0.7, feedbackGain := 0.85, shimmerMix := 0, roomSize := 0.5,
    shimmerCompensation := 1, pitchShiftBuffer := [3, 0, 0, 0],
    pitchShiftWritePos := 7, pitchShiftReadPos := 3 }

/-- A concrete `CinderProcessor` state built from default-constructed
components. -/
def cinderDemo : CinderProcessor :=
  { shimmerReverbL := shimmerDemo, shimmerReverbR := shimmerDemo,
    preLofiDegraderL := lofiInit, preLofiDegraderR := lofiInit,
    postLofiDegraderL := lofiInit, postLofiDegraderR := lofiInit,
    preWavefolderL := wavefolderInit, preWavefolderR := wavefolderInit,
    postWavefolderL := wavefolderInit, postWavefolderR := wavefolderInit,
    envState := 0, envAttackCoeff := 0.9556, envReleaseCoeff := 0.99985 }

/-- Concrete parameter values with `pre = 0`, used to exercise the
pre-destruction bypass. -/
def demoParams : RouterParams :=
  { decay := 2, shimmer := 1 / 2, degrade := 1 / 2, fold := 1 / 2, dirt := 1 / 2,
    size := 1 / 2, mix := 0.3, pre := 0, duck := 1 / 2 }

end

theorem tanh_lt_one (x : ℝ) : Real.tanh x < 1 := by
  rw [Real.tanh_eq_sinh_div_cosh, div_lt_one (Real.cosh_pos x)]
  exact Real.sinh_lt_cosh x

theorem tanh_nonneg {x : ℝ} (h : 0 ≤ x) : 0 ≤ Real.tanh x := by
  rw [Real.tanh_eq_sinh_div_cosh]
  exact div_nonneg (by rwa [Real.sinh_nonneg_iff]) (Real.cosh_pos x).le

/-- C2: Bypass identity — `LofiDegrader::process` returns its input and leaves
the state untouched when `degradeAmount == 0`, and `Wavefolder::process`
likewise when `foldAmount == 0` (both fall under the `< 0.001` early-return). -/
theorem c2_bypass_identity (x : ℝ) (dg : LofiDegrader) (wf : Wavefolder)
    (h1 : dg.degradeAmount = 0) (h2 : wf.foldAmount = 0) :
    dg.process x = (x, dg) ∧ wf.process x = (x, wf) := by
  constructor
  · unfold LofiDegrader.process
    rw [h1, if_pos (by norm_num : (0 : ℝ) < 0.001)]
  · unfold Wavefolder.process
    rw [h2, if_pos (by norm_num : (0 : ℝ) < 0.001)]

theorem c2_bypass_identity_witness :
    lofiInit.degradeAmount = 0 ∧ wavefolderInit.foldAmount = 0 ∧
      (lofiInit.process (1 / 2) = (1 / 2, lofiInit) ∧
       wavefolderInit.process (1 / 2) = (1 / 2, wavefolderInit)) :=
  ⟨rfl, rfl, c2_bypass_identity (1 / 2) lofiInit wavefolderInit rfl rfl⟩

/-- C3: evaluation of the code at the claim's failing input.  With native rate
44100 Hz, `setDegrade(1.0)` yields a target sample rate of `44100 · 0.1 = 4410`
Hz — the 4000 Hz floor in `std::max(targetSampleRate, 4000.0f)` does not bind —
while the target bit depth does reach the 4-bit floor.  The claim (and the
source's own comments `44100 Hz -> 4000 Hz` and `100% = 4kHz`) say 4000 Hz. -/
theorem c3_extreme_degrade_divergence :
    ((lofiInit.prepare 44100).setDegrade 1).targetSampleRate = 4410 ∧
    ((lofiInit.prepare 44100).setDegrade 1).targetBitDepth = 4 ∧
    (4410 : ℝ) ≠ 4000 := by
  have hc : stdClamp 1 0 1 = (1 : ℝ) := by unfold stdClamp; norm_num
  refine ⟨?_, ?_, by norm_num⟩
  · show max (44100 * (0.1 : ℝ) ^ (stdClamp 1 0 1 : ℝ)) 4000 = 4410
    rw [hc, Real.rpow_one]
    norm_num
  · show max (16 - stdClamp 1 0 1 * 12) 4 = 4
    rw [hc]
    norm_num

/-- C8 counterexample: the pre-gain map is not an exponential curve.  Any
exponential curve `a ↦ A · B ^ a` running from 1 at `a = 0` to 8 at `a = 1`
satisfies `g(1/2)² = g(0) · g(1)`; the implemented map gives
`foldGainOf (1/2)² = 4.5² = 20.25 ≠ 1 · 8`. -/
theorem c8_counterexample :
    foldGainOf 0 = 1 ∧ foldGainOf 1 = 8 ∧
    foldGainOf (1 / 2) ^ 2 ≠ foldGainOf 0 * foldGainOf 1 := by
  unfold foldGainOf Wavefolder.setFold wavefolderInit stdClamp
  norm_num

/-- C8 (amended): `Wavefolder::setFold` maps every amount in `[0,1]` to the
pre-gain by the linear map `1 + 7·amount`, running from 1× at amount 0 to 8× at
amount 1 (the curve is linear, not exponential). -/
theorem c8_fold_pre_gain_linear (a : ℝ) (h0 : 0 ≤ a) (h1 : a ≤ 1) :
    foldGainOf a = 1 + a * 7 ∧ 1 ≤ foldGainOf a ∧ foldGainOf a ≤ 8 := by
  have hc : stdClamp a 0 1 = a := by
    unfold stdClamp
    rw [min_eq_left h1, max_eq_right h0]
  have hg : foldGainOf a = 1 + a * 7 := by
    rw [show foldGainOf a = 1 + stdClamp a 0 1 * 7 from rfl, hc]
  refine ⟨hg, by rw [hg]; nlinarith, by rw [hg]; nlinarith⟩

theorem c8_fold_pre_gain_linear_witness :
    (0 ≤ (1 / 2 : ℝ) ∧ (1 / 2 : ℝ) ≤ 1) ∧
    (foldGainOf (1 / 2) = 1 + (1 / 2) * 7 ∧ 1 ≤ foldGainOf (1 / 2) ∧
     foldGainOf (1 / 2) ≤ 8) :=
  ⟨⟨by norm_num, by norm_num⟩, c8_fold_pre_gain_linear (1 / 2) (by norm_num) (by norm_num)⟩

/-- C10: for any non-bypass degrade amount in `[0.001, 1]` at native rate 44100
Hz, the per-call phase increment `targetRate / nativeRate` is strictly below 1,
and the first `process` call after `reset` (here via `prepare`) returns the
initial held sample 0 regardless of its input — no phase crossing can occur on
that call. -/
theorem c10_sample_hold_first_output (a : ℝ) (h0 : 0.001 ≤ a) (h1 : a ≤ 1) :
    ((lofiInit.prepare 44100).setDegrade a).targetSampleRate
        / ((lofiInit.prepare 44100).setDegrade a).actualSampleRate < 1 ∧
    ∀ x : ℝ, (((lofiInit.prepare 44100).setDegrade a).process x).1 = 0 := by
  have hc : stdClamp a 0 1 = a := by
    unfold stdClamp
    rw [min_eq_left h1, max_eq_right (le_trans (by norm_num) h0)]
  have hrp : (0.1 : ℝ) ^ (a : ℝ) < 1 :=
    Real.rpow_lt_one (by norm_num) (by norm_num) (lt_of_lt_of_le (by norm_num) h0)
  have hts : ((lofiInit.prepare 44100).setDegrade a).targetSampleRate
      = max (44100 * (0.1 : ℝ) ^ (stdClamp a 0 1 : ℝ)) 4000 := rfl
  have hinc : ((lofiInit.prepare 44100).setDegrade a).targetSampleRate
      / ((lofiInit.prepare 44100).setDegrade a).actualSampleRate < 1 := by
    rw [hts, hc, show ((lofiInit.prepare 44100).setDegrade a).actualSampleRate
        = (44100 : ℝ) from rfl, div_lt_one (by norm_num)]
    apply max_lt ?_ (by norm_num)
    nlinarith
  refine ⟨hinc, fun x => ?_⟩
  unfold LofiDegrader.process
  rw [if_neg ?hbyp]
  case hbyp =>
    show ¬ stdClamp a 0 1 < 0.001
    rw [hc]
    exact not_lt.mpr h0
  rw [if_neg ?hcross]
  case hcross =>
    show ¬ (0 : ℝ) + _ / _ ≥ 1
    push_neg
    simpa using hinc
  rfl

/-- C7: Hadamard mixing correctness and energy preservation — each output of
`hadamardMix` is `(1/√8) · Σ_j (-1)^popcount(i&j) · input[j]`, and the sum of
squares of the 8 mixed outputs equals the sum of squares of the 8 inputs
(exactly, in real arithmetic). -/
theorem c7_hadamard_energy (x : Fin 8 → ℝ) :
    (∀ i : Fin 8, hadamardMix x i
        = (1 / Real.sqrt 8)
            * ∑ j : Fin 8, (-1 : ℝ) ^ popcount ((i : ℕ) &&& (j : ℕ)) * x j) ∧
    ∑ i : Fin 8, hadamardMix x i ^ 2 = ∑ i : Fin 8, x i ^ 2 := by
  constructor
  · intro i
    have h : ∀ n : ℕ, (-1 : ℝ) ^ n = if n % 2 = 0 then 1 else -1 := by
      intro n
      rcases Nat.even_or_odd n with h | h
      · rw [h.neg_one_pow, if_pos (Nat.even_iff.mp h)]
      · rw [h.neg_one_pow, if_neg (by simpa [Nat.odd_iff] using h)]
    simp only [hadamardMix, h]
    ring
  · have hs : (1 / Real.sqrt 8 : ℝ) ^ 2 = 1 / 8 := by
      rw [div_pow, one_pow, Real.sq_sqrt (by norm_num : (8 : ℝ) ≥ 0)]
    simp +decide only [hadamardMix, Fin.sum_univ_eight, Fin.isValue, if_true,
      if_false, mul_pow, hs]
    ring

theorem abs_softLimit_le_one (x : ℝ) : |softLimit x| ≤ 1 := by
  unfold softLimit
  by_cases h : |x| < 0.8
  · rw [if_pos h]
    linarith [abs_nonneg x]
  · rw [if_neg h]
    push_neg at h
    have ht1 : Real.tanh ((|x| - 0.8) * 2) < 1 := tanh_lt_one _
    have ht0 : 0 ≤ Real.tanh ((|x| - 0.8) * 2) := tanh_nonneg (by nlinarith)
    have habs : |(if x > 0 then (1 : ℝ) else -1)| = 1 := by
      split_ifs <;> norm_num
    show |(if x > 0 then (1 : ℝ) else -1)
        * (0.8 + (1 - 0.8) * Real.tanh ((|x| - 0.8) * 2))| ≤ 1
    rw [abs_mul, habs, one_mul, abs_of_nonneg (by nlinarith)]
    nlinarith

theorem abs_getD_le_one {l : List ℝ} (h : ∀ v ∈ l, |v| ≤ 1) (n : ℕ) :
    |l.getD n 0| ≤ 1 := by
  induction l generalizing n with
  | nil => simp
  | cons a t ih =>
    cases n with
    | zero => simpa using h a (by simp)
    | succ m => simpa using ih (fun v hv => h v (by simp [hv])) m

theorem abs_delayRead_le_one {l : List ℝ} (h : ∀ v ∈ l, |v| ≤ 1) (d : ℝ) :
    |delayRead l d| ≤ 1 := by
  unfold delayRead
  have hf0 : 0 ≤ Int.fract d := Int.fract_nonneg d
  have hf1 : Int.fract d ≤ 1 := (Int.fract_lt_one d).le
  have h1 := abs_getD_le_one h (⌊d⌋).toNat
  have h2 := abs_getD_le_one h ((⌊d⌋).toNat + 1)
  set A := l.getD (⌊d⌋).toNat 0 with hA
  set B := l.getD ((⌊d⌋).toNat + 1) 0 with hB
  set f := Int.fract d with hf
  have hstep : |A * (1 - f) + B * f| ≤ |A| * (1 - f) + |B| * f := by
    calc |A * (1 - f) + B * f| ≤ |A * (1 - f)| + |B * f| := abs_add _ _
    _ = |A| * |1 - f| + |B| * |f| := by rw [abs_mul, abs_mul]
    _ = |A| * (1 - f) + |B| * f := by
        rw [abs_of_nonneg (show (0 : ℝ) ≤ 1 - f by linarith), abs_of_nonneg hf0]
  have e1 : (1 - |A|) * (1 - f) ≥ 0 := mul_nonneg (by linarith) (by linarith)
  have e2 : (1 - |B|) * f ≥ 0 := mul_nonneg (by linarith) hf0
  nlinarith [hstep, e1, e2]

theorem process_fst (st : ShimmerReverb) (x : ℝ) :
    (st.process x).1
      = (∑ i : Fin 8,
          delayRead (st.delayLines i) ((st.baseDelayTimes i : ℝ) * (0.5 + st.roomSize)))
        * 0.25 := rfl

theorem process_delayLines_shape (st : ShimmerReverb) (x : ℝ) (i : Fin 8) :
    ∃ w : ℝ, (st.process x).2.delayLines i = softLimit w :: st.delayLines i :=
  ⟨_, rfl⟩

theorem process_step_bound (st : ShimmerReverb) (x : ℝ) (hb : delayBounded st) :
    |(st.process x).1| ≤ 2 ∧ delayBounded (st.process x).2 := by
  constructor
  · rw [process_fst]
    have hsum : |∑ i : Fin 8,
        delayRead (st.delayLines i) ((st.baseDelayTimes i : ℝ) * (0.5 + st.roomSize))| ≤ 8 := by
      calc |∑ i : Fin 8,
            delayRead (st.delayLines i) ((st.baseDelayTimes i : ℝ) * (0.5 + st.roomSize))|
          ≤ ∑ i : Fin 8,
            |delayRead (st.delayLines i) ((st.baseDelayTimes i : ℝ) * (0.5 + st.roomSize))| :=
          Finset.abs_sum_le_sum_abs _ _
      _ ≤ ∑ _i : Fin 8, (1 : ℝ) :=
          Finset.sum_le_sum fun i _ => abs_delayRead_le_one (hb i) _
      _ = 8 := by simp
    rw [abs_mul, show |(0.25 : ℝ)| = 0.25 by norm_num]
    linarith
  · intro i v hv
    obtain ⟨w, hw⟩ := process_delayLines_shape st x i
    rw [hw] at hv
    rcases List.mem_cons.mp hv with h | h
    · rw [h]
      exact abs_softLimit_le_one w
    · exact hb i v h

theorem setParameters_delayBounded (st : ShimmerReverb) (d s r : ℝ)
    (hb : delayBounded st) : delayBounded (st.setParameters d s r) := hb

theorem run_bound (steps : List (ReverbParams × ℝ)) (st : ShimmerReverb)
    (hb : delayBounded st) :
    delayBounded (st.run steps).2 ∧ ∀ out ∈ (st.run steps).1, |out| ≤ 2 := by
  induction steps generalizing st with
  | nil => exact ⟨hb, by intro out hout; simp [ShimmerReverb.run] at hout⟩
  | cons s rest ih =>
    obtain ⟨p, x⟩ := s
    have hb1 : delayBounded (st.setParameters p.decay p.shimmer p.room) :=
      setParameters_delayBounded st p.decay p.shimmer p.room hb
    have hstep := process_step_bound (st.setParameters p.decay p.shimmer p.room) x hb1
    have ihh := ih _ hstep.2
    refine ⟨ihh.1, ?_⟩
    intro out hout
    rcases List.mem_cons.mp hout with h | h
    · rw [h]
      exact hstep.1
    · exact ihh.2 out h

theorem pow985_le :
    (0.985 : ℝ) ^ 200 ≤ 1 / 10 := by norm_num

theorem le_rpow_ten {c y : ℝ} (q : ℕ) (hq : q ≠ 0)
    (h : c ^ q ≤ (10 : ℝ) ^ (y * q)) : c ≤ (10 : ℝ) ^ y := by
  by_contra hlt
  push_neg at hlt
  have h1 : (0 : ℝ) ≤ (10 : ℝ) ^ y := (Real.rpow_pos_of_pos (by norm_num) y).le
  have h2 : ((10 : ℝ) ^ y) ^ q < c ^ q := pow_lt_pow_left₀ hlt h1 hq
  have h3 : ((10 : ℝ) ^ y) ^ q = (10 : ℝ) ^ (y * q) := by
    rw [← Real.rpow_natCast ((10 : ℝ) ^ y) q, ← Real.rpow_mul (by norm_num : (0 : ℝ) ≤ 10)]
  linarith [h3 ▸ h2]

theorem rt60_ge_cap_18 : (0.985 : ℝ) ≤ (10 : ℝ) ^ (-3 * (0.030 : ℝ) / 18 : ℝ) := by
  apply le_rpow_ten 200 (by norm_num)
  rw [show (-3 * (0.030 : ℝ) / 18) * (200 : ℕ) = ((-1 : ℤ) : ℝ) by push_cast; ring,
      Real.rpow_intCast]
  calc (0.985 : ℝ) ^ 200 ≤ 1 / 10 := pow985_le
  _ = (10 : ℝ) ^ (-1 : ℤ) := by norm_num

theorem rt60_ge_cap_27 : (0.985 : ℝ) ≤ (10 : ℝ) ^ (-3 * (0.030 : ℝ) / 27 : ℝ) := by
  apply le_rpow_ten 300 (by norm_num)
  rw [show (-3 * (0.030 : ℝ) / 27) * (300 : ℕ) = ((-1 : ℤ) : ℝ) by push_cast; ring,
      Real.rpow_intCast]
  calc (0.985 : ℝ) ^ 300 = 0.985 ^ 200 * 0.985 ^ 100 := by rw [← pow_add]
  _ ≤ (1 / 10) * 1 :=
      mul_le_mul pow985_le (pow_le_one₀ (by norm_num) (by norm_num))
        (pow_nonneg (by norm_num) _) (by norm_num)
  _ = (10 : ℝ) ^ (-1 : ℤ) := by norm_num

theorem rt60_ge_cap_295 : (0.985 : ℝ) ≤ (10 : ℝ) ^ (-3 * (0.030 : ℝ) / 29.5 : ℝ) := by
  apply le_rpow_ten 2950 (by norm_num)
  rw [show (-3 * (0.030 : ℝ) / 29.5) * (2950 : ℕ) = ((-9 : ℤ) : ℝ) by push_cast; ring,
      Real.rpow_intCast]
  calc (0.985 : ℝ) ^ 2950 ≤ 0.985 ^ 1800 :=
      pow_le_pow_of_le_one (by norm_num) (by norm_num) (by norm_num)
  _ = (0.985 ^ 200) ^ 9 := by rw [← pow_mul]
  _ ≤ (1 / 10) ^ 9 := pow_le_pow_left₀ (pow_nonneg (by norm_num) _) pow985_le 9
  _ = (10 : ℝ) ^ (-9 : ℤ) := by norm_num

theorem feedbackGainOf_eq_cap {d : ℝ} (hd : ¬ d > 50)
    (h : (0.985 : ℝ) ≤ (10 : ℝ) ^ (-3 * (0.030 : ℝ) / d : ℝ)) :
    feedbackGainOf d = 0.985 := by
  unfold feedbackGainOf stdClamp
  rw [if_neg hd, min_eq_right h, max_eq_right (by norm_num)]

theorem feedbackGainOf_nonneg (d : ℝ) : 0 ≤ feedbackGainOf d := by
  unfold feedbackGainOf stdClamp
  split_ifs
  · norm_num
  · exact le_max_left _ _

theorem feedbackGainOf_le (d : ℝ) : feedbackGainOf d ≤ 0.9985 := by
  unfold feedbackGainOf stdClamp
  split_ifs
  · exact le_refl _
  · exact le_trans (max_le (by norm_num) (min_le_right _ _)) (by norm_num)

/-- C4 counterexample: `ShimmerReverb::reset` leaves the per-line damping
filter states and the pitch-shift write/read positions untouched, so a state
with nonzero values there stays nonzero after `reset` — the claim that all
delay/filter/phase state is zero after `reset` is false. -/
theorem c4_counterexample :
    shimmerDemo.reset.dampingFilters 0 = 1 / 2 ∧ (1 / 2 : ℝ) ≠ 0 ∧
    shimmerDemo.reset.pitchShiftWritePos = 7 ∧ (7 : ℕ) ≠ 0 ∧
    shimmerDemo.reset.pitchShiftReadPos = 3 ∧ (3 : ℝ) ≠ 0 :=
  ⟨rfl, by norm_num, rfl, by norm_num, rfl, by norm_num⟩

/-- C4 (amended): `ShimmerReverb::reset` clears every delay-line history, every
input-diffuser history, the (unused) `delayLineStates` array and the pitch-shift
buffer contents, preserving the pitch-shift buffer's size (no reallocation), but
it leaves the per-line damping-filter states and the pitch-shift write/read
positions unchanged. -/
theorem c4_reset_behavior (st : ShimmerReverb) :
    st.reset.delayLines = (fun _ => []) ∧
    st.reset.inputDiffusers = (fun _ => []) ∧
    st.reset.delayLineStates = (fun _ => 0) ∧
    (∀ v ∈ st.reset.pitchShiftBuffer, v = 0) ∧
    st.reset.pitchShiftBuffer.length = st.pitchShiftBuffer.length ∧
    st.reset.dampingFilters = st.dampingFilters ∧
    st.reset.pitchShiftWritePos = st.pitchShiftWritePos ∧
    st.reset.pitchShiftReadPos = st.pitchShiftReadPos := by
  refine ⟨rfl, rfl, rfl, ?_, ?_, rfl, rfl, rfl⟩
  · intro v hv
    exact List.eq_of_mem_replicate hv
  · exact List.length_replicate _ _

/-- C5 counterexample: at decay exactly `29.5`, the processor's infinite-mode
test `decay > 29.5f` is false, so the derived feedback gain is the RT60 value
clamped to the `0.985` cap — not the near-unity constant `0.9985` the claim
requires for every `d ≥ 29.5`. -/
theorem c5_counterexample :
    derivedFeedbackGain 29.5 = 0.985 ∧ (0.985 : ℝ) ≠ 0.9985 := by
  constructor
  · unfold derivedFeedbackGain
    rw [if_neg (by norm_num : ¬ (29.5 : ℝ) > 29.5)]
    exact feedbackGainOf_eq_cap (by norm_num) rt60_ge_cap_295
  · norm_num

/-- C5 (amended): for every decay parameter strictly above `29.5` the engine is
in infinite/freeze mode — the decay is mapped to 100 s, which takes the `> 50`
branch of `setParameters`, so the derived feedback gain is the near-unity
constant `0.9985`, still strictly below 1. -/
theorem c5_infinite_mode_threshold (d : ℝ) (h : d > 29.5) :
    derivedFeedbackGain d = 0.9985 ∧ (0.9985 : ℝ) < 1 := by
  unfold derivedFeedbackGain feedbackGainOf
  rw [if_pos h, if_pos (by norm_num : (100 : ℝ) > 50)]
  exact ⟨rfl, by norm_num⟩

theorem c5_infinite_mode_threshold_witness :
    (30 : ℝ) > 29.5 ∧ derivedFeedbackGain 30 = 0.9985 ∧ (0.9985 : ℝ) < 1 :=
  ⟨by norm_num, c5_infinite_mode_threshold 30 (by norm_num)⟩

/-- C6 counterexample: the derived feedback gain is not strictly increasing on
the non-infinite decay range — at decays 18 and 27 the RT60 value exceeds the
`0.985` cap, so both clamp to exactly `0.985` (and the dB-per-second decay rate
is therefore equal, not strictly smaller, at the larger decay). -/
theorem c6_counterexample :
    (0.1 : ℝ) ≤ 18 ∧ (18 : ℝ) < 27 ∧ (27 : ℝ) ≤ 29.5 ∧
    derivedFeedbackGain 18 = derivedFeedbackGain 27 ∧
    derivedFeedbackGain 18 = 0.985 := by
  have h18 : derivedFeedbackGain 18 = 0.985 := by
    unfold derivedFeedbackGain
    rw [if_neg (by norm_num : ¬ (18 : ℝ) > 29.5)]
    exact feedbackGainOf_eq_cap (by norm_num) rt60_ge_cap_18
  have h27 : derivedFeedbackGain 27 = 0.985 := by
    unfold derivedFeedbackGain
    rw [if_neg (by norm_num : ¬ (27 : ℝ) > 29.5)]
    exact feedbackGainOf_eq_cap (by norm_num) rt60_ge_cap_27
  exact ⟨by norm_num, by norm_num, by norm_num, by rw [h18, h27], h18⟩

/-- C6 (amended): the derived feedback gain is monotone nondecreasing in the
decay parameter (strict increase fails once the `0.985` cap binds), and it is
strictly below 1 for every decay value, the infinite-mode constant `0.9985`
included. -/
theorem c6_gain_monotone (d1 d2 : ℝ) (hd1 : 0 < d1) (h12 : d1 ≤ d2) :
    derivedFeedbackGain d1 ≤ derivedFeedbackGain d2 ∧
    (∀ d : ℝ, derivedFeedbackGain d < 1) := by
  have hlt1 : ∀ d : ℝ, derivedFeedbackGain d < 1 := fun d =>
    lt_of_le_of_lt (feedbackGainOf_le _) (by norm_num)
  refine ⟨?_, hlt1⟩
  unfold derivedFeedbackGain
  by_cases h1 : d1 > 29.5 <;> by_cases h2 : d2 > 29.5
  · rw [if_pos h1, if_pos h2]
  · exact absurd (lt_of_lt_of_le h1 h12) h2
  · rw [if_pos h2, if_neg h1]
    calc feedbackGainOf d1 ≤ 0.9985 := feedbackGainOf_le d1
    _ = feedbackGainOf 100 := by
        unfold feedbackGainOf
        rw [if_pos (by norm_num : (100 : ℝ) > 50)]
  · rw [if_neg h1, if_neg h2]
    push_neg at h1 h2
    have hd2 : 0 < d2 := lt_of_lt_of_le hd1 h12
    have hexp : -3 * (0.030 : ℝ) / d1 ≤ -3 * (0.030 : ℝ) / d2 := by
      rw [div_le_div_iff₀ hd1 hd2]
      nlinarith
    have hrpow : (10 : ℝ) ^ (-3 * (0.030 : ℝ) / d1 : ℝ)
        ≤ (10 : ℝ) ^ (-3 * (0.030 : ℝ) / d2 : ℝ) :=
      (Real.rpow_le_rpow_left_iff (by norm_num : (1 : ℝ) < 10)).mpr hexp
    unfold feedbackGainOf stdClamp
    rw [if_neg (by linarith : ¬ d1 > 50), if_neg (by linarith : ¬ d2 > 50)]
    exact max_le_max le_rfl (min_le_min hrpow le_rfl)

theorem c6_gain_monotone_witness :
    (0 : ℝ) < 2 ∧ (2 : ℝ) ≤ 5 ∧
    derivedFeedbackGain 2 ≤ derivedFeedbackGain 5 ∧ derivedFeedbackGain 7 < 1 :=
  ⟨by norm_num, by norm_num, (c6_gain_monotone 2 5 (by norm_num) (by norm_num)).1,
   (c6_gain_monotone 2 5 (by norm_num) (by norm_num)).2 7⟩

/-- C1: BIBO stability of the FDN.  For any starting state whose delay lines
hold only samples of magnitude at most 1 (the prepared state's empty histories
in particular) and any sequence of per-sample steps with parameters in the
declared ranges and inputs in `[-1, 1]`: every value written back into a delay
line passes through `softLimit` and so has magnitude at most 1 (first and third
conjuncts — each pushed sample is a `softLimit` image, and the delay lines stay
bounded by 1 after the whole run); the applied feedback gain
`feedbackGain * shimmerCompensation` set by `setParameters` is strictly below
unity (second conjunct); and every `process` output has magnitude below 4
(fourth conjunct — it is in fact at most 2). -/
theorem c1_bibo_stability (st : ShimmerReverb) (steps : List (ReverbParams × ℝ))
    (hb : delayBounded st)
    (hin : ∀ s ∈ steps, 0.1 ≤ s.1.decay ∧ s.1.decay ≤ 30 ∧ 0 ≤ s.1.shimmer ∧
        s.1.shimmer ≤ 1 ∧ 0 ≤ s.1.room ∧ s.1.room ≤ 1 ∧ |s.2| ≤ 1) :
    (∀ y : ℝ, |softLimit y| ≤ 1) ∧
    (∀ (st' : ShimmerReverb) (d s r : ℝ), 0 ≤ s → s ≤ 1 →
        (st'.setParameters d s r).feedbackGain
          * (st'.setParameters d s r).shimmerCompensation < 1) ∧
    delayBounded (st.run steps).2 ∧
    (∀ out ∈ (st.run steps).1, |out| < 4) := by
  have hrun := run_bound steps st hb
  refine ⟨abs_softLimit_le_one, ?_, hrun.1, ?_⟩
  · intro st' d s r hs0 hs1
    have hfb : (st'.setParameters d s r).feedbackGain = feedbackGainOf d := rfl
    have hsc : (st'.setParameters d s r).shimmerCompensation = 1 - s * 0.15 := rfl
    rw [hfb, hsc]
    have hg0 := feedbackGainOf_nonneg d
    have hg1 := feedbackGainOf_le d
    nlinarith
  · intro out hout
    exact lt_of_le_of_lt (hrun.2 out hout) (by norm_num)

theorem c1_bibo_stability_witness :
    delayBounded shimmerDemo ∧
    (∀ s ∈ [(ReverbParams.mk 2 (1 / 2) (1 / 2), (1 : ℝ))],
        0.1 ≤ s.1.decay ∧ s.1.decay ≤ 30 ∧ 0 ≤ s.1.shimmer ∧ s.1.shimmer ≤ 1 ∧
        0 ≤ s.1.room ∧ s.1.room ≤ 1 ∧ |s.2| ≤ 1) ∧
    (∀ out ∈ (shimmerDemo.run [(ReverbParams.mk 2 (1 / 2) (1 / 2), (1 : ℝ))]).1,
        |out| < 4) := by
  have hb : delayBounded shimmerDemo := by
    intro i v hv
    simp [shimmerDemo] at hv
  have hin : ∀ s ∈ [(ReverbParams.mk 2 (1 / 2) (1 / 2), (1 : ℝ))],
      0.1 ≤ s.1.decay ∧ s.1.decay ≤ 30 ∧ 0 ≤ s.1.shimmer ∧ s.1.shimmer ≤ 1 ∧
      0 ≤ s.1.room ∧ s.1.room ≤ 1 ∧ |s.2| ≤ 1 := by
    intro s hs
    simp only [List.mem_singleton] at hs
    subst hs
    norm_num
  exact ⟨hb, hin,
    (c1_bibo_stability shimmerDemo [(ReverbParams.mk 2 (1 / 2) (1 / 2), (1 : ℝ))]
      hb hin).2.2.2⟩

/-- C9: pre-destruction hard bypass at `pre = 0`.  When the smoothed `pre`
value is 0 the per-sample body of `processBlock` computes exactly what the
variant with the pre-destruction stage forcibly disabled computes (first
conjunct: outputs and full state coincide); the pre-path degrader and
wavefolder are not invoked — their sample-and-hold and DC-blocker state
(phase, held sample, PRNG state, filter memories) is unchanged, only the
unconditional `setDegrade`/`setFold` parameter pushes, common to both
variants, touch them (middle conjuncts); and the reverb is fed exactly the
dry samples (last conjuncts). -/
theorem c9_pre_bypass (st : CinderProcessor) (p : RouterParams) (inL inR : ℝ)
    (h : p.pre = 0) :
    st.processSample p inL inR = st.processSampleNoPre p inL inR ∧
    (st.processSample p inL inR).2.preLofiDegraderL.phase = st.preLofiDegraderL.phase ∧
    (st.processSample p inL inR).2.preLofiDegraderL.holdSampleL
      = st.preLofiDegraderL.holdSampleL ∧
    (st.processSample p inL inR).2.preLofiDegraderL.randState
      = st.preLofiDegraderL.randState ∧
    (st.processSample p inL inR).2.preLofiDegraderR.phase = st.preLofiDegraderR.phase ∧
    (st.processSample p inL inR).2.preLofiDegraderR.holdSampleL
      = st.preLofiDegraderR.holdSampleL ∧
    (st.processSample p inL inR).2.preLofiDegraderR.randState
      = st.preLofiDegraderR.randState ∧
    (st.processSample p inL inR).2.preWavefolderL.dcBlockerState
      = st.preWavefolderL.dcBlockerState ∧
    (st.processSample p inL inR).2.preWavefolderL.prevInput
      = st.preWavefolderL.prevInput ∧
    (st.processSample p inL inR).2.preWavefolderR.dcBlockerState
      = st.preWavefolderR.dcBlockerState ∧
    (st.processSample p inL inR).2.preWavefolderR.prevInput
      = st.preWavefolderR.prevInput ∧
    (st.processSample p inL inR).2.shimmerReverbL
      = ((st.shimmerReverbL.setParameters (if p.decay > 29.5 then 100 else p.decay)
          p.shimmer p.size).process inL).2 ∧
    (st.processSample p inL inR).2.shimmerReverbR
      = ((st.shimmerReverbR.setParameters (if p.decay > 29.5 then 100 else p.decay)
          p.shimmer p.size).process inR).2 := by
  constructor
  · unfold CinderProcessor.processSample CinderProcessor.processSampleNoPre
    simp only [h]
    norm_num
  · unfold CinderProcessor.processSample
    simp only [h]
    norm_num [LofiDegrader.setDegrade, Wavefolder.setFold]

theorem c9_pre_bypass_witness :
    demoParams.pre = 0 ∧
    cinderDemo.processSample demoParams 1 0
      = cinderDemo.processSampleNoPre demoParams 1 0 :=
  ⟨rfl, (c9_pre_bypass cinderDemo demoParams 1 0 rfl).1⟩

theorem c10_sample_hold_first_output_witness :
    ((0.001 : ℝ) ≤ 1 ∧ (1 : ℝ) ≤ 1) ∧
    ((lofiInit.prepare 44100).setDegrade 1).targetSampleRate
        / ((lofiInit.prepare 44100).setDegrade 1).actualSampleRate < 1 ∧
    (((lofiInit.prepare 44100).setDegrade 1).process 7).1 = 0 :=
  ⟨⟨by norm_num, le_rfl⟩,
   (c10_sample_hold_first_output 1 (by norm_num) le_rfl).1,
   (c10_sample_hold_first_output 1 (by norm_num) le_rfl).2 7⟩

end Dirtverb
